import Mathlib

/-!
Verification of the OTP (one-time password) flow of the candidate-verification
portal, shallowly embedded from `src/server/routes.ts`.

The Express app registers `/api/send-otp` and `/api/verify-otp` twice; Express
dispatches a request to the first matching handler, and the first handlers
always end the response, so the handlers at lines 64-152 (send) and 155-198
(verify) are the ones that execute.  They are the code embedded here.

The OTP store is `new Map<string, { otp; timestamp; attempts }>()` (line 61),
modelled as a function `String → Option OtpData`.  `Date.now()` timestamps are
modelled as `Int` (milliseconds).  The SMS dispatch (Twilio / Textbelt / demo)
is external I/O that never touches the store and always yields a 200 response
whose demo path carries the generated code; it is modelled by the single
success response constructor.  `Math.random()` is modelled as a rational in
`[0, 1)`.
-/

namespace Veri

/-- `5 * 60 * 1000` ms, the expiry window checked at line 170. -/
def OTP_TTL_MS : Int := 5 * 60 * 1000

/-- The attempt limit checked at line 177. -/
def MAX_ATTEMPTS : Nat := 3

/-- One entry of the `otpStore` map (line 61):
`{ otp: string; timestamp: number; attempts: number }`. -/
structure OtpData where
  otp : String
  timestamp : Int
  attempts : Nat
deriving Repr, DecidableEq

/-- The `otpStore` map, as a partial function from phone numbers to entries. -/
def OtpStore : Type := String → Option OtpData

/-- A fresh `Map` holds no entries. -/
def OtpStore.empty : OtpStore := fun _ => none

/-- `otpStore.get(k)`. -/
def OtpStore.get (s : OtpStore) (k : String) : Option OtpData := s k

/-- `otpStore.set(k, v)`. -/
def OtpStore.set (s : OtpStore) (k : String) (v : OtpData) : OtpStore :=
  fun q => if q = k then some v else s q

/-- `otpStore.delete(k)`. -/
def OtpStore.del (s : OtpStore) (k : String) : OtpStore :=
  fun q => if q = k then none else s q

/-- JSON bodies the two OTP handlers produce. -/
inductive JsonBody where
  /-- `{ error: msg }` -/
  | errMsg (error : String)
  /-- `{ error: msg, attemptsLeft }` (line 189-192) -/
  | errAttempts (error : String) (attemptsLeft : Nat)
  /-- `{ success: true, message: msg }` (line 185) -/
  | okMsg (message : String)
  /-- the 200 response of `/api/send-otp`: the SMS result, whose demo
  fallback (line 141) carries the generated code as `demoOtp` -/
  | smsOk (demoOtp : String)
deriving Repr, DecidableEq

/-- An HTTP response: status code plus JSON body. -/
structure HttpResponse where
  status : Nat
  body : JsonBody
deriving Repr, DecidableEq

/-- The 4-digit code generator of line 73:
`Math.floor(1000 + Math.random() * 9000)`, with `Math.random()` modelled as a
rational `r ∈ [0, 1)`. -/
def genOtpVal (r : ℚ) : ℕ := ⌊(1000 : ℚ) + r * 9000⌋₊

/-- Line 73's `.toString()`: the decimal string of the generated value. -/
def genOtpCode (r : ℚ) : String := Nat.repr (genOtpVal r)

/-- The `/api/send-otp` handler (lines 64-152), first registration.  The
freshly generated code is passed in as `code` (line 73 feeds lines 76-80).
Validation (line 68): `!phoneNumber || phoneNumber.length !== 10` — for a
string argument, falsiness is emptiness, which already has length `≠ 10`.
On success, lines 76-80 store `{ otp, timestamp: Date.now(), attempts: 0 }`
and the handler responds 200 with the SMS result. -/
def sendOtp (store : OtpStore) (phoneNumber code : String) (now : Int) :
    HttpResponse × OtpStore :=
  if phoneNumber = "" ∨ phoneNumber.length ≠ 10 then
    (⟨400, .errMsg "Valid 10-digit phone number required"⟩, store)
  else
    (⟨200, .smsOk code⟩, store.set phoneNumber ⟨code, now, 0⟩)

/-- The `/api/verify-otp` handler (lines 155-198), first registration.
Order of checks, exactly as in the source: missing input (159), lookup (163),
expiry (170), attempt limit `attempts >= 3` (177), code equality (183); a
mismatch increments `attempts` and re-stores the entry (187-188). -/
def verifyOtp (store : OtpStore) (phoneNumber otp : String) (now : Int) :
    HttpResponse × OtpStore :=
  if phoneNumber = "" ∨ otp = "" then
    (⟨400, .errMsg "Phone number and OTP required"⟩, store)
  else
    match store.get phoneNumber with
    | none => (⟨400, .errMsg "No OTP found for this number"⟩, store)
    | some storedData =>
      if now - storedData.timestamp > OTP_TTL_MS then
        (⟨400, .errMsg "OTP has expired"⟩, store.del phoneNumber)
      else if storedData.attempts ≥ MAX_ATTEMPTS then
        (⟨400, .errMsg "Maximum verification attempts exceeded"⟩,
          store.del phoneNumber)
      else if storedData.otp = otp then
        (⟨200, .okMsg "OTP verified successfully"⟩, store.del phoneNumber)
      else
        (⟨400, .errAttempts "Invalid OTP" (MAX_ATTEMPTS - (storedData.attempts + 1))⟩,
          store.set phoneNumber { storedData with attempts := storedData.attempts + 1 })

/-- States of `otpStore` reachable from the empty map by any sequence of the
two OTP endpoints. -/
inductive Reachable : OtpStore → Prop where
  | init : Reachable OtpStore.empty
  | send (s : OtpStore) (p c : String) (t : Int) :
      Reachable s → Reachable (sendOtp s p c t).2
  | verify (s : OtpStore) (p c : String) (t : Int) :
      Reachable s → Reachable (verifyOtp s p c t).2

theorem OtpStore.get_set_self (s : OtpStore) (k : String) (v : OtpData) :
    (s.set k v).get k = some v := by
  simp [OtpStore.set, OtpStore.get]

theorem OtpStore.get_set_ne (s : OtpStore) (k : String) (v : OtpData)
    (q : String) (h : q ≠ k) : (s.set k v).get q = s.get q := by
  simp [OtpStore.set, OtpStore.get, h]

theorem OtpStore.get_del_self (s : OtpStore) (k : String) :
    (s.del k).get k = none := by
  simp [OtpStore.del, OtpStore.get]

theorem OtpStore.get_del_ne (s : OtpStore) (k : String)
    (q : String) (h : q ≠ k) : (s.del k).get q = s.get q := by
  simp [OtpStore.del, OtpStore.get, h]

theorem verifyOtp_missing (store : OtpStore) (p c : String) (now : Int)
    (h : p = "" ∨ c = "") :
    verifyOtp store p c now =
      (⟨400, .errMsg "Phone number and OTP required"⟩, store) := by
  unfold verifyOtp
  rw [if_pos h]

theorem verifyOtp_notFound (store : OtpStore) (p c : String) (now : Int)
    (hp : p ≠ "") (hc : c ≠ "") (h : store.get p = none) :
    verifyOtp store p c now =
      (⟨400, .errMsg "No OTP found for this number"⟩, store) := by
  unfold verifyOtp
  rw [if_neg (by simp [hp, hc])]
  simp only [h]

theorem verifyOtp_expired (store : OtpStore) (p c : String) (now : Int)
    (e : OtpData) (hp : p ≠ "") (hc : c ≠ "")
    (he : store.get p = some e) (hx : now - e.timestamp > OTP_TTL_MS) :
    verifyOtp store p c now =
      (⟨400, .errMsg "OTP has expired"⟩, store.del p) := by
  unfold verifyOtp
  rw [if_neg (by simp [hp, hc])]
  simp only [he]
  rw [if_pos hx]

theorem verifyOtp_maxed (store : OtpStore) (p c : String) (now : Int)
    (e : OtpData) (hp : p ≠ "") (hc : c ≠ "")
    (he : store.get p = some e) (hx : ¬ now - e.timestamp > OTP_TTL_MS)
    (ha : e.attempts ≥ MAX_ATTEMPTS) :
    verifyOtp store p c now =
      (⟨400, .errMsg "Maximum verification attempts exceeded"⟩,
        store.del p) := by
  unfold verifyOtp
  rw [if_neg (by simp [hp, hc])]
  simp only [he]
  rw [if_neg hx, if_pos ha]

theorem verifyOtp_match (store : OtpStore) (p c : String) (now : Int)
    (e : OtpData) (hp : p ≠ "") (hc : c ≠ "")
    (he : store.get p = some e) (hx : ¬ now - e.timestamp > OTP_TTL_MS)
    (ha : ¬ e.attempts ≥ MAX_ATTEMPTS) (hm : e.otp = c) :
    verifyOtp store p c now =
      (⟨200, .okMsg "OTP verified successfully"⟩, store.del p) := by
  unfold verifyOtp
  rw [if_neg (by simp [hp, hc])]
  simp only [he]
  rw [if_neg hx, if_neg ha, if_pos hm]

theorem verifyOtp_mismatch (store : OtpStore) (p c : String) (now : Int)
    (e : OtpData) (hp : p ≠ "") (hc : c ≠ "")
    (he : store.get p = some e) (hx : ¬ now - e.timestamp > OTP_TTL_MS)
    (ha : ¬ e.attempts ≥ MAX_ATTEMPTS) (hm : e.otp ≠ c) :
    verifyOtp store p c now =
      (⟨400, .errAttempts "Invalid OTP" (MAX_ATTEMPTS - (e.attempts + 1))⟩,
        store.set p { e with attempts := e.attempts + 1 }) := by
  unfold verifyOtp
  rw [if_neg (by simp [hp, hc])]
  simp only [he]
  rw [if_neg hx, if_neg ha, if_neg hm]

theorem sendOtp_ok (store : OtpStore) (p code : String) (now : Int)
    (hp : p.length = 10) :
    sendOtp store p code now =
      (⟨200, .smsOk code⟩, store.set p ⟨code, now, 0⟩) := by
  unfold sendOtp
  rw [if_neg]
  push_neg
  exact ⟨by intro h; rw [h] at hp; exact absurd hp (by decide), hp⟩

theorem sendOtp_invalid (store : OtpStore) (p code : String) (now : Int)
    (hp : p.length ≠ 10) :
    sendOtp store p code now =
      (⟨400, .errMsg "Valid 10-digit phone number required"⟩, store) := by
  unfold sendOtp
  rw [if_pos (Or.inr hp)]

theorem ne_empty_of_len10 (p : String) (hp : p.length = 10) : p ≠ "" := by
  intro h
  rw [h] at hp
  exact absurd hp (by decide)

/-- C1 (counterexample): after issuing to `9876543210` and submitting the
wrong code three times, the fourth `verify` call does NOT return the
`NotFound` response the claim predicts — it returns the
"Maximum verification attempts exceeded" response, because the third mismatch
left the record live at `attempts = 3` and the limit check (line 177) fires
only on the next call. -/
theorem C1_counterexample :
    (verifyOtp (verifyOtp (verifyOtp (verifyOtp
        (sendOtp OtpStore.empty "9876543210" "1234" 0).2
        "9876543210" "0000" 1).2
        "9876543210" "0000" 2).2
        "9876543210" "0000" 3).2
        "9876543210" "0000" 4).1 =
      ⟨400, .errMsg "Maximum verification attempts exceeded"⟩ ∧
    (verifyOtp (verifyOtp (verifyOtp (verifyOtp
        (sendOtp OtpStore.empty "9876543210" "1234" 0).2
        "9876543210" "0000" 1).2
        "9876543210" "0000" 2).2
        "9876543210" "0000" 3).2
        "9876543210" "0000" 4).1 ≠
      ⟨400, .errMsg "No OTP found for this number"⟩ := by
  decide

/-- C1 (amended): with a live fresh record (attempts 0) and the TTL not yet
elapsed, three wrong `verify` calls return "Invalid OTP" with
`attemptsLeft` 2, 1, 0 in order; the third call leaves the record live with
`attempts = 3` (it is not deleted in that call); a fourth call returns the
"Maximum verification attempts exceeded" response and deletes the record, and
only a fifth call returns the `NotFound` response. -/
theorem C1_attempt_budget (s : OtpStore) (p c w : String)
    (t0 t1 t2 t3 t4 t5 : Int)
    (hp : p ≠ "") (hw : w ≠ "") (hwc : w ≠ c)
    (he : s.get p = some ⟨c, t0, 0⟩)
    (h1 : t1 - t0 ≤ OTP_TTL_MS) (h2 : t2 - t0 ≤ OTP_TTL_MS)
    (h3 : t3 - t0 ≤ OTP_TTL_MS) (h4 : t4 - t0 ≤ OTP_TTL_MS) :
    (verifyOtp s p w t1).1 = ⟨400, .errAttempts "Invalid OTP" 2⟩ ∧
    (verifyOtp (verifyOtp s p w t1).2 p w t2).1 =
      ⟨400, .errAttempts "Invalid OTP" 1⟩ ∧
    (verifyOtp (verifyOtp (verifyOtp s p w t1).2 p w t2).2 p w t3).1 =
      ⟨400, .errAttempts "Invalid OTP" 0⟩ ∧
    ((verifyOtp (verifyOtp (verifyOtp s p w t1).2 p w t2).2 p w t3).2).get p =
      some ⟨c, t0, 3⟩ ∧
    (verifyOtp (verifyOtp (verifyOtp (verifyOtp s p w t1).2 p w t2).2
        p w t3).2 p w t4).1 =
      ⟨400, .errMsg "Maximum verification attempts exceeded"⟩ ∧
    ((verifyOtp (verifyOtp (verifyOtp (verifyOtp s p w t1).2 p w t2).2
        p w t3).2 p w t4).2).get p = none ∧
    (verifyOtp (verifyOtp (verifyOtp (verifyOtp (verifyOtp s p w t1).2
        p w t2).2 p w t3).2 p w t4).2 p w t5).1 =
      ⟨400, .errMsg "No OTP found for this number"⟩ := by
  have hcw : c ≠ w := Ne.symm hwc
  have step1 := verifyOtp_mismatch s p w t1 ⟨c, t0, 0⟩ hp hw he
    (not_lt.mpr h1) (by simp [MAX_ATTEMPTS]) hcw
  have h1s : (verifyOtp s p w t1).2 = s.set p ⟨c, t0, 1⟩ := by rw [step1]
  have he1 : (s.set p ⟨c, t0, 1⟩).get p = some ⟨c, t0, 1⟩ :=
    OtpStore.get_set_self s p _
  have step2 := verifyOtp_mismatch (s.set p ⟨c, t0, 1⟩) p w t2 ⟨c, t0, 1⟩
    hp hw he1 (not_lt.mpr h2) (by simp [MAX_ATTEMPTS]) hcw
  have h2s : (verifyOtp (verifyOtp s p w t1).2 p w t2).2 =
      (s.set p ⟨c, t0, 1⟩).set p ⟨c, t0, 2⟩ := by rw [h1s, step2]
  have he2 : ((s.set p ⟨c, t0, 1⟩).set p ⟨c, t0, 2⟩).get p = some ⟨c, t0, 2⟩ :=
    OtpStore.get_set_self _ p _
  have step3 := verifyOtp_mismatch ((s.set p ⟨c, t0, 1⟩).set p ⟨c, t0, 2⟩)
    p w t3 ⟨c, t0, 2⟩ hp hw he2 (not_lt.mpr h3) (by simp [MAX_ATTEMPTS]) hcw
  have h3s : (verifyOtp (verifyOtp (verifyOtp s p w t1).2 p w t2).2 p w t3).2 =
      ((s.set p ⟨c, t0, 1⟩).set p ⟨c, t0, 2⟩).set p ⟨c, t0, 3⟩ := by
    rw [h2s, step3]
  have he3 : (((s.set p ⟨c, t0, 1⟩).set p ⟨c, t0, 2⟩).set p ⟨c, t0, 3⟩).get p =
      some ⟨c, t0, 3⟩ := OtpStore.get_set_self _ p _
  have step4 := verifyOtp_maxed
    (((s.set p ⟨c, t0, 1⟩).set p ⟨c, t0, 2⟩).set p ⟨c, t0, 3⟩) p w t4
    ⟨c, t0, 3⟩ hp hw he3 (not_lt.mpr h4) (by simp [MAX_ATTEMPTS])
  have h4s : (verifyOtp (verifyOtp (verifyOtp (verifyOtp s p w t1).2
      p w t2).2 p w t3).2 p w t4).2 =
      (((s.set p ⟨c, t0, 1⟩).set p ⟨c, t0, 2⟩).set p ⟨c, t0, 3⟩).del p := by
    rw [h3s, step4]
  have he4 : ((((s.set p ⟨c, t0, 1⟩).set p ⟨c, t0, 2⟩).set p
      ⟨c, t0, 3⟩).del p).get p = none := OtpStore.get_del_self _ p
  refine ⟨?_, ?_, ?_, ?_, ?_, ?_, ?_⟩
  · rw [step1]
    rfl
  · rw [h1s, step2]
    rfl
  · rw [h2s, step3]
    rfl
  · rw [h3s, he3]
  · rw [h3s, step4]
  · rw [h4s, he4]
  · rw [h4s, verifyOtp_notFound _ p w t5 hp hw he4]

/-- C1 witness: the amended budget theorem instantiated on a concrete record
for `9876543210`, wrong code `0000`, all calls within the TTL. -/
theorem C1_attempt_budget_witness :
    (verifyOtp (OtpStore.empty.set "9876543210" ⟨"1234", 0, 0⟩)
        "9876543210" "0000" 1).1 = ⟨400, .errAttempts "Invalid OTP" 2⟩ ∧
    (verifyOtp (verifyOtp (OtpStore.empty.set "9876543210" ⟨"1234", 0, 0⟩)
        "9876543210" "0000" 1).2 "9876543210" "0000" 2).1 =
      ⟨400, .errAttempts "Invalid OTP" 1⟩ ∧
    (verifyOtp (verifyOtp (verifyOtp
        (OtpStore.empty.set "9876543210" ⟨"1234", 0, 0⟩)
        "9876543210" "0000" 1).2 "9876543210" "0000" 2).2
        "9876543210" "0000" 3).1 = ⟨400, .errAttempts "Invalid OTP" 0⟩ ∧
    ((verifyOtp (verifyOtp (verifyOtp
        (OtpStore.empty.set "9876543210" ⟨"1234", 0, 0⟩)
        "9876543210" "0000" 1).2 "9876543210" "0000" 2).2
        "9876543210" "0000" 3).2).get "9876543210" = some ⟨"1234", 0, 3⟩ ∧
    (verifyOtp (verifyOtp (verifyOtp (verifyOtp
        (OtpStore.empty.set "9876543210" ⟨"1234", 0, 0⟩)
        "9876543210" "0000" 1).2 "9876543210" "0000" 2).2
        "9876543210" "0000" 3).2 "9876543210" "0000" 4).1 =
      ⟨400, .errMsg "Maximum verification attempts exceeded"⟩ ∧
    ((verifyOtp (verifyOtp (verifyOtp (verifyOtp
        (OtpStore.empty.set "9876543210" ⟨"1234", 0, 0⟩)
        "9876543210" "0000" 1).2 "9876543210" "0000" 2).2
        "9876543210" "0000" 3).2 "9876543210" "0000" 4).2).get "9876543210" =
      none ∧
    (verifyOtp (verifyOtp (verifyOtp (verifyOtp (verifyOtp
        (OtpStore.empty.set "9876543210" ⟨"1234", 0, 0⟩)
        "9876543210" "0000" 1).2 "9876543210" "0000" 2).2
        "9876543210" "0000" 3).2 "9876543210" "0000" 4).2
        "9876543210" "0000" 5).1 =
      ⟨400, .errMsg "No OTP found for this number"⟩ :=
  C1_attempt_budget (OtpStore.empty.set "9876543210" ⟨"1234", 0, 0⟩)
    "9876543210" "1234" "0000" 0 1 2 3 4 5
    (by decide) (by decide) (by decide) (by decide)
    (by decide) (by decide) (by decide) (by decide)

/-- C2: single use.  After a successful issue for `p` stores code `c`, a
`verify(p, c)` call made while the TTL has not elapsed returns the 200
success response and deletes the record, and an immediately following
`verify(p, c)` returns the `NotFound` response. -/
theorem C2_single_use (s : OtpStore) (p c : String) (t0 t1 t2 : Int)
    (hp : p.length = 10) (hc : c ≠ "") (h1 : t1 - t0 ≤ OTP_TTL_MS) :
    (verifyOtp (sendOtp s p c t0).2 p c t1).1 =
      ⟨200, .okMsg "OTP verified successfully"⟩ ∧
    ((verifyOtp (sendOtp s p c t0).2 p c t1).2).get p = none ∧
    (verifyOtp (verifyOtp (sendOtp s p c t0).2 p c t1).2 p c t2).1 =
      ⟨400, .errMsg "No OTP found for this number"⟩ := by
  have hp' : p ≠ "" := ne_empty_of_len10 p hp
  have hs1 : (sendOtp s p c t0).2 = s.set p ⟨c, t0, 0⟩ := by
    rw [sendOtp_ok s p c t0 hp]
  have hget : (s.set p ⟨c, t0, 0⟩).get p = some ⟨c, t0, 0⟩ :=
    OtpStore.get_set_self s p _
  have hv : verifyOtp (s.set p ⟨c, t0, 0⟩) p c t1 =
      (⟨200, .okMsg "OTP verified successfully"⟩, (s.set p ⟨c, t0, 0⟩).del p) :=
    verifyOtp_match _ p c t1 ⟨c, t0, 0⟩ hp' hc hget (not_lt.mpr h1)
      (by simp [MAX_ATTEMPTS]) rfl
  have hgone : ((s.set p ⟨c, t0, 0⟩).del p).get p = none :=
    OtpStore.get_del_self _ p
  refine ⟨?_, ?_, ?_⟩
  · rw [hs1, hv]
  · rw [hs1, hv]
    exact hgone
  · rw [hs1, hv, verifyOtp_notFound _ p c t2 hp' hc hgone]

/-- C2 witness: issue `1234` to `9876543210` at time 0, verify it at time 5,
verify it again at time 6. -/
theorem C2_single_use_witness :
    (verifyOtp (sendOtp OtpStore.empty "9876543210" "1234" 0).2
        "9876543210" "1234" 5).1 =
      ⟨200, .okMsg "OTP verified successfully"⟩ ∧
    ((verifyOtp (sendOtp OtpStore.empty "9876543210" "1234" 0).2
        "9876543210" "1234" 5).2).get "9876543210" = none ∧
    (verifyOtp (verifyOtp (sendOtp OtpStore.empty "9876543210" "1234" 0).2
        "9876543210" "1234" 5).2 "9876543210" "1234" 6).1 =
      ⟨400, .errMsg "No OTP found for this number"⟩ :=
  C2_single_use OtpStore.empty "9876543210" "1234" 0 5 6
    (by decide) (by decide) (by decide)

/-- C3: expiry precedence.  If `verify(p, c)` runs strictly later than
`issuedAt + 5` minutes on a live record, the result is the 400 expired
response no matter what code is submitted and no matter the attempt count of
the record; the record is deleted by that call, so a subsequent `verify`
returns the `NotFound` response (and no incremented attempt counter can
survive, the record being gone). -/
theorem C3_expiry_precedence (s : OtpStore) (p c c2 : String) (now t2 : Int)
    (e : OtpData) (hp : p ≠ "") (hc : c ≠ "") (hc2 : c2 ≠ "")
    (he : s.get p = some e) (hx : e.timestamp + OTP_TTL_MS < now) :
    (verifyOtp s p c now).1 = ⟨400, .errMsg "OTP has expired"⟩ ∧
    ((verifyOtp s p c now).2).get p = none ∧
    (verifyOtp (verifyOtp s p c now).2 p c2 t2).1 =
      ⟨400, .errMsg "No OTP found for this number"⟩ := by
  have hx' : now - e.timestamp > OTP_TTL_MS := by linarith
  have hv := verifyOtp_expired s p c now e hp hc he hx'
  have hgone : ((s.del p)).get p = none := OtpStore.get_del_self s p
  refine ⟨?_, ?_, ?_⟩
  · rw [hv]
  · rw [hv]
    exact hgone
  · rw [hv, verifyOtp_notFound _ p c2 t2 hp hc2 hgone]

/-- C3 witness: a record with the correct code `1234` and attempt budget
fully available (attempts 2 used) is still rejected as expired at time
`300001` ms, one past the TTL, even though the submitted code matches. -/
theorem C3_expiry_precedence_witness :
    (verifyOtp (OtpStore.empty.set "9876543210" ⟨"1234", 0, 2⟩)
        "9876543210" "1234" 300001).1 = ⟨400, .errMsg "OTP has expired"⟩ ∧
    ((verifyOtp (OtpStore.empty.set "9876543210" ⟨"1234", 0, 2⟩)
        "9876543210" "1234" 300001).2).get "9876543210" = none ∧
    (verifyOtp (verifyOtp (OtpStore.empty.set "9876543210" ⟨"1234", 0, 2⟩)
        "9876543210" "1234" 300001).2 "9876543210" "1234" 300002).1 =
      ⟨400, .errMsg "No OTP found for this number"⟩ :=
  C3_expiry_precedence (OtpStore.empty.set "9876543210" ⟨"1234", 0, 2⟩)
    "9876543210" "1234" "1234" 300001 300002 ⟨"1234", 0, 2⟩
    (by decide) (by decide) (by decide) (by decide) (by decide)

theorem reachable_attempts_le (s : OtpStore) (hs : Reachable s) :
    ∀ p e, s.get p = some e → e.attempts ≤ MAX_ATTEMPTS := by
  induction hs with
  | init =>
    intro q e h
    simp [OtpStore.empty, OtpStore.get] at h
  | send s p c t _ ih =>
    intro q e h
    by_cases hl : p.length = 10
    · rw [sendOtp_ok s p c t hl] at h
      by_cases hq : q = p
      · subst hq
        rw [OtpStore.get_set_self] at h
        cases h
        simp [MAX_ATTEMPTS]
      · rw [OtpStore.get_set_ne s p _ q hq] at h
        exact ih q e h
    · rw [sendOtp_invalid s p c t hl] at h
      exact ih q e h
  | verify s p c t _ ih =>
    intro q e h
    by_cases hpc : p = "" ∨ c = ""
    · rw [verifyOtp_missing s p c t hpc] at h
      exact ih q e h
    · push_neg at hpc
      obtain ⟨hp, hc⟩ := hpc
      cases hd : s.get p with
      | none =>
        rw [verifyOtp_notFound s p c t hp hc hd] at h
        exact ih q e h
      | some d =>
        by_cases hx : t - d.timestamp > OTP_TTL_MS
        · rw [verifyOtp_expired s p c t d hp hc hd hx] at h
          by_cases hq : q = p
          · subst hq
            rw [OtpStore.get_del_self] at h
            exact Option.noConfusion h
          · rw [OtpStore.get_del_ne s p q hq] at h
            exact ih q e h
        · by_cases ha : d.attempts ≥ MAX_ATTEMPTS
          · rw [verifyOtp_maxed s p c t d hp hc hd hx ha] at h
            by_cases hq : q = p
            · subst hq
              rw [OtpStore.get_del_self] at h
              exact Option.noConfusion h
            · rw [OtpStore.get_del_ne s p q hq] at h
              exact ih q e h
          · by_cases hm : d.otp = c
            · rw [verifyOtp_match s p c t d hp hc hd hx ha hm] at h
              by_cases hq : q = p
              · subst hq
                rw [OtpStore.get_del_self] at h
                exact Option.noConfusion h
              · rw [OtpStore.get_del_ne s p q hq] at h
                exact ih q e h
            · rw [verifyOtp_mismatch s p c t d hp hc hd hx ha hm] at h
              by_cases hq : q = p
              · subst hq
                rw [OtpStore.get_set_self] at h
                cases h
                exact not_le.mp ha
              · rw [OtpStore.get_set_ne s p _ q hq] at h
                exact ih q e h

theorem verifyOtp_del_of_maxed (s : OtpStore) (p c : String) (now : Int)
    (e : OtpData) (hp : p ≠ "") (hc : c ≠ "")
    (he : s.get p = some e) (ha : e.attempts ≥ MAX_ATTEMPTS) :
    ((verifyOtp s p c now).2).get p = none := by
  by_cases hx : now - e.timestamp > OTP_TTL_MS
  · rw [verifyOtp_expired s p c now e hp hc he hx]
    exact OtpStore.get_del_self s p
  · rw [verifyOtp_maxed s p c now e hp hc he hx ha]
    exact OtpStore.get_del_self s p

/-- C4 (counterexample): the claim says a failed attempt that brings
`attemptsUsed` to the maximum deletes the record within that same call.  In
the reachable state produced by issuing to `9876543210` and submitting the
wrong code three times, the third failed call raised `attempts` to 3 and the
record is still live. -/
theorem C4_counterexample :
    Reachable (verifyOtp (verifyOtp (verifyOtp
      (sendOtp OtpStore.empty "9876543210" "1234" 0).2
      "9876543210" "0000" 1).2 "9876543210" "0000" 2).2
      "9876543210" "0000" 3).2 ∧
    ((verifyOtp (verifyOtp (verifyOtp
      (sendOtp OtpStore.empty "9876543210" "1234" 0).2
      "9876543210" "0000" 1).2 "9876543210" "0000" 2).2
      "9876543210" "0000" 3).2).get "9876543210" = some ⟨"1234", 0, 3⟩ := by
  constructor
  · exact .verify _ _ _ _ (.verify _ _ _ _ (.verify _ _ _ _
      (.send _ _ _ _ .init)))
  · decide

/-- C4 (amended): on every reachable state of the store, every live record
has `attempts ≤ 3`; a record sitting at the maximum is deleted by the next
`verify` call for its phone number (whatever code is submitted), rather than
within the failed call that brought the counter to the maximum. -/
theorem C4_attempts_invariant (s : OtpStore) (hs : Reachable s) :
    (∀ p e, s.get p = some e → e.attempts ≤ MAX_ATTEMPTS) ∧
    (∀ p c now e, p ≠ "" → c ≠ "" → s.get p = some e →
      e.attempts = MAX_ATTEMPTS → ((verifyOtp s p c now).2).get p = none) :=
  ⟨reachable_attempts_le s hs,
   fun p c now e hp hc he ha =>
     verifyOtp_del_of_maxed s p c now e hp hc he ha.ge⟩

/-- C4 witness: in the reachable state holding `9876543210 ↦ ⟨1234, 0, 3⟩`,
the next `verify` call deletes the record. -/
theorem C4_attempts_invariant_witness :
    ((verifyOtp (verifyOtp (verifyOtp (verifyOtp
      (sendOtp OtpStore.empty "9876543210" "1234" 0).2
      "9876543210" "0000" 1).2 "9876543210" "0000" 2).2
      "9876543210" "0000" 3).2 "9876543210" "0000" 4).2).get "9876543210" =
      none :=
  (C4_attempts_invariant
    (verifyOtp (verifyOtp (verifyOtp
      (sendOtp OtpStore.empty "9876543210" "1234" 0).2
      "9876543210" "0000" 1).2 "9876543210" "0000" 2).2
      "9876543210" "0000" 3).2
    (.verify _ _ _ _ (.verify _ _ _ _ (.verify _ _ _ _
      (.send _ _ _ _ .init))))).2
    "9876543210" "0000" 4 ⟨"1234", 0, 3⟩
    (by decide) (by decide) (by decide) (by decide)

/-- C5: overwrite on re-issue.  A successful issue for `p` stores exactly
`⟨code, now, 0⟩` whatever the prior store held (two different prior stores
give the same entry for `p`), and after two issues with distinct codes a
`verify` with the first code — within the TTL of the second issue — returns
the Invalid-OTP response with 2 attempts left, not the success response. -/
theorem C5_overwrite (s sAlt : OtpStore) (p c1 c2 : String) (t1 t2 t3 : Int)
    (hp : p.length = 10) (hc1 : c1 ≠ "") (hne : c1 ≠ c2)
    (ht : t3 - t2 ≤ OTP_TTL_MS) :
    ((sendOtp s p c2 t2).2).get p = some ⟨c2, t2, 0⟩ ∧
    ((sendOtp s p c2 t2).2).get p = ((sendOtp sAlt p c2 t2).2).get p ∧
    (verifyOtp (sendOtp (sendOtp s p c1 t1).2 p c2 t2).2 p c1 t3).1 =
      ⟨400, .errAttempts "Invalid OTP" 2⟩ ∧
    (verifyOtp (sendOtp (sendOtp s p c1 t1).2 p c2 t2).2 p c1 t3).1 ≠
      ⟨200, .okMsg "OTP verified successfully"⟩ := by
  have hp' : p ≠ "" := ne_empty_of_len10 p hp
  have hset : ∀ u : OtpStore, ((sendOtp u p c2 t2).2).get p = some ⟨c2, t2, 0⟩ := by
    intro u
    rw [sendOtp_ok u p c2 t2 hp]
    exact OtpStore.get_set_self u p _
  have hv : (verifyOtp (sendOtp (sendOtp s p c1 t1).2 p c2 t2).2 p c1 t3).1 =
      ⟨400, .errAttempts "Invalid OTP" 2⟩ := by
    rw [verifyOtp_mismatch _ p c1 t3 ⟨c2, t2, 0⟩ hp' hc1 (hset _)
      (not_lt.mpr ht) (by simp [MAX_ATTEMPTS]) (Ne.symm hne)]
    rfl
  refine ⟨hset s, (hset s).trans (hset sAlt).symm, hv, ?_⟩
  rw [hv]
  simp

/-- C5 witness: issue `1234` then `5678` to `9876543210`; verifying with the
stale `1234` immediately afterwards is a mismatch. -/
theorem C5_overwrite_witness :
    ((sendOtp OtpStore.empty "9876543210" "5678" 10).2).get "9876543210" =
      some ⟨"5678", 10, 0⟩ ∧
    ((sendOtp OtpStore.empty "9876543210" "5678" 10).2).get "9876543210" =
      ((sendOtp (OtpStore.empty.set "0000000000" ⟨"9999", 3, 2⟩)
        "9876543210" "5678" 10).2).get "9876543210" ∧
    (verifyOtp (sendOtp (sendOtp OtpStore.empty "9876543210" "1234" 0).2
        "9876543210" "5678" 10).2 "9876543210" "1234" 11).1 =
      ⟨400, .errAttempts "Invalid OTP" 2⟩ ∧
    (verifyOtp (sendOtp (sendOtp OtpStore.empty "9876543210" "1234" 0).2
        "9876543210" "5678" 10).2 "9876543210" "1234" 11).1 ≠
      ⟨200, .okMsg "OTP verified successfully"⟩ :=
  C5_overwrite OtpStore.empty (OtpStore.empty.set "0000000000" ⟨"9999", 3, 2⟩)
    "9876543210" "1234" "5678" 0 10 11
    (by decide) (by decide) (by decide) (by decide)

/-- C6: isolation between phone numbers.  Any send or verify operation keyed
on `p1` leaves the record of any other phone number `p2` untouched, whichever
branch the operation takes (create, overwrite, mismatch increment, expiry
delete, exhaustion delete, success delete, or no-op). -/
theorem C6_isolation (s : OtpStore) (p1 p2 c w : String) (t u : Int)
    (h : p1 ≠ p2) :
    ((sendOtp s p1 c t).2).get p2 = s.get p2 ∧
    ((verifyOtp s p1 w u).2).get p2 = s.get p2 := by
  have h2 : p2 ≠ p1 := Ne.symm h
  constructor
  · unfold sendOtp
    split
    · rfl
    · exact OtpStore.get_set_ne s p1 _ p2 h2
  · unfold verifyOtp
    split
    · rfl
    · split
      · rfl
      · split
        · exact OtpStore.get_del_ne s p1 p2 h2
        · split
          · exact OtpStore.get_del_ne s p1 p2 h2
          · split
            · exact OtpStore.get_del_ne s p1 p2 h2
            · exact OtpStore.get_set_ne s p1 _ p2 h2

/-- C6 witness: operations on `9876543210` leave the record of `0123456789`
unchanged. -/
theorem C6_isolation_witness :
    ((sendOtp (OtpStore.empty.set "0123456789" ⟨"4321", 7, 1⟩)
        "9876543210" "1234" 0).2).get "0123456789" =
      (OtpStore.empty.set "0123456789" ⟨"4321", 7, 1⟩).get "0123456789" ∧
    ((verifyOtp (OtpStore.empty.set "0123456789" ⟨"4321", 7, 1⟩)
        "9876543210" "0000" 1).2).get "0123456789" =
      (OtpStore.empty.set "0123456789" ⟨"4321", 7, 1⟩).get "0123456789" :=
  C6_isolation (OtpStore.empty.set "0123456789" ⟨"4321", 7, 1⟩)
    "9876543210" "0123456789" "1234" "0000" 0 1 (by decide)

/-- C10: missing-input rejection is atomic.  When the phone number or the
submitted code is empty (the falsy strings of line 159), the verify endpoint
returns 400 with the dedicated "Phone number and OTP required" body — which
differs from the NotFound body and from every Invalid-OTP body — and the
store is returned completely unchanged. -/
theorem C10_missing_input (s : OtpStore) (p c : String) (now : Int)
    (h : p = "" ∨ c = "") :
    verifyOtp s p c now =
      (⟨400, .errMsg "Phone number and OTP required"⟩, s) ∧
    (JsonBody.errMsg "Phone number and OTP required" ≠
      JsonBody.errMsg "No OTP found for this number") ∧
    (∀ m : String, ∀ n : Nat,
      JsonBody.errMsg "Phone number and OTP required" ≠
        JsonBody.errAttempts m n) := by
  refine ⟨verifyOtp_missing s p c now h, by decide, ?_⟩
  intro m n
  exact fun hx => JsonBody.noConfusion hx

/-- C10 witness: an empty phone number with a non-empty code is rejected with
the validation response and the store is unchanged. -/
theorem C10_missing_input_witness :
    verifyOtp (OtpStore.empty.set "9876543210" ⟨"1234", 0, 0⟩) "" "1234" 5 =
      (⟨400, .errMsg "Phone number and OTP required"⟩,
        OtpStore.empty.set "9876543210" ⟨"1234", 0, 0⟩) :=
  (C10_missing_input (OtpStore.empty.set "9876543210" ⟨"1234", 0, 0⟩)
    "" "1234" 5 (Or.inl rfl)).1

/-- C8 (counterexample): the claim says a verify call that finds no record
and one that finds an expired record produce identical bodies.  They do not:
the no-record call answers "No OTP found for this number" (line 166) while
the expired call answers "OTP has expired" (line 173), so the response does
reveal whether a code had been issued recently. -/
theorem C8_counterexample :
    (verifyOtp OtpStore.empty "9876543210" "1234" 0).1 =
      ⟨400, .errMsg "No OTP found for this number"⟩ ∧
    (verifyOtp (OtpStore.empty.set "9876543210" ⟨"1234", 0, 0⟩)
        "9876543210" "1234" 300001).1 =
      ⟨400, .errMsg "OTP has expired"⟩ ∧
    (verifyOtp OtpStore.empty "9876543210" "1234" 0).1 ≠
      (verifyOtp (OtpStore.empty.set "9876543210" ⟨"1234", 0, 0⟩)
        "9876543210" "1234" 300001).1 := by
  decide

/-- C8 (amended): the verify endpoint maps success to 200, a mismatch to 400
with an `attemptsLeft` count, and both the expired and the no-record case to
400 with a fixed message each — but the two messages are distinct, so the
response does distinguish an expired record from an absent one. -/
theorem C8_response_mapping (s : OtpStore) (p c : String) (now : Int)
    (e : OtpData) (hp : p ≠ "") (hc : c ≠ "") :
    (s.get p = none →
      (verifyOtp s p c now).1 =
        ⟨400, .errMsg "No OTP found for this number"⟩) ∧
    (s.get p = some e → now - e.timestamp > OTP_TTL_MS →
      (verifyOtp s p c now).1 = ⟨400, .errMsg "OTP has expired"⟩) ∧
    (s.get p = some e → ¬ now - e.timestamp > OTP_TTL_MS →
      ¬ e.attempts ≥ MAX_ATTEMPTS → e.otp = c →
      (verifyOtp s p c now).1 =
        ⟨200, .okMsg "OTP verified successfully"⟩) ∧
    (s.get p = some e → ¬ now - e.timestamp > OTP_TTL_MS →
      ¬ e.attempts ≥ MAX_ATTEMPTS → e.otp ≠ c →
      (verifyOtp s p c now).1 =
        ⟨400, .errAttempts "Invalid OTP" (MAX_ATTEMPTS - (e.attempts + 1))⟩) ∧
    (JsonBody.errMsg "No OTP found for this number" ≠
      JsonBody.errMsg "OTP has expired") := by
  refine ⟨?_, ?_, ?_, ?_, by decide⟩
  · intro h
    rw [verifyOtp_notFound s p c now hp hc h]
  · intro he hx
    rw [verifyOtp_expired s p c now e hp hc he hx]
  · intro he hx ha hm
    rw [verifyOtp_match s p c now e hp hc he hx ha hm]
  · intro he hx ha hm
    rw [verifyOtp_mismatch s p c now e hp hc he hx ha hm]

/-- C8 witness: the no-record branch of the mapping theorem evaluated on the
empty store. -/
theorem C8_response_mapping_witness :
    (verifyOtp OtpStore.empty "9876543210" "1234" 0).1 =
      ⟨400, .errMsg "No OTP found for this number"⟩ :=
  (C8_response_mapping OtpStore.empty "9876543210" "1234" 0 ⟨"1234", 0, 0⟩
    (by decide) (by decide)).1 rfl

/-- C9 (counterexample): `"123"` is a non-empty phone number, yet the send
handler rejects it with the 400 validation response (line 68 also requires
length 10) and stores nothing, so issue does not succeed on every non-empty
input. -/
theorem C9_counterexample :
    ("123" : String) ≠ "" ∧
    (sendOtp OtpStore.empty "123" "1234" 0).1 =
      ⟨400, .errMsg "Valid 10-digit phone number required"⟩ ∧
    ((sendOtp OtpStore.empty "123" "1234" 0).2).get "123" = none := by
  decide

/-- C9 (amended): issue succeeds exactly for phone numbers of length 10 — it
then stores the fresh record `⟨code, now, 0⟩` and responds 200 with the
code — and for every other length (empty or not) it responds 400 with the
validation error and leaves the store unchanged. -/
theorem C9_issue_succeeds (s : OtpStore) (p c : String) (t : Int) :
    (p.length = 10 →
      sendOtp s p c t = (⟨200, .smsOk c⟩, s.set p ⟨c, t, 0⟩)) ∧
    (p.length ≠ 10 →
      sendOtp s p c t =
        (⟨400, .errMsg "Valid 10-digit phone number required"⟩, s)) :=
  ⟨fun h => sendOtp_ok s p c t h, fun h => sendOtp_invalid s p c t h⟩

/-- C9 witness: the success branch evaluated on a 10-character number. -/
theorem C9_issue_succeeds_witness :
    sendOtp OtpStore.empty "9876543210" "1234" 0 =
      (⟨200, .smsOk "1234"⟩,
        OtpStore.empty.set "9876543210" ⟨"1234", 0, 0⟩) :=
  (C9_issue_succeeds OtpStore.empty "9876543210" "1234" 0).1 (by decide)

/-- C7: code format.  For every random-source value `r ∈ [0, 1)`, the value
generated at line 73 lies in `1000 .. 9999` inclusive, the stored code is its
decimal string, that value has exactly 4 decimal digits with no leading zero
(its most significant digit, the last entry of `Nat.digits 10`, is nonzero),
and every integer of the range is generated by some random-source value. -/
theorem C7_code_format (r : ℚ) (h0 : 0 ≤ r) (h1 : r < 1) :
    1000 ≤ genOtpVal r ∧ genOtpVal r ≤ 9999 ∧
    genOtpCode r = Nat.repr (genOtpVal r) ∧
    (Nat.digits 10 (genOtpVal r)).length = 4 ∧
    (∀ d, (Nat.digits 10 (genOtpVal r)).getLast? = some d → d ≠ 0) ∧
    (∀ n : ℕ, 1000 ≤ n → n ≤ 9999 →
      ∃ q : ℚ, 0 ≤ q ∧ q < 1 ∧ genOtpVal q = n) := by
  have hlo : (1000 : ℚ) ≤ 1000 + r * 9000 := by nlinarith
  have hhi : (1000 : ℚ) + r * 9000 < 10000 := by nlinarith
  have hnn : (0 : ℚ) ≤ 1000 + r * 9000 := by linarith
  have lb : 1000 ≤ genOtpVal r := by
    unfold genOtpVal
    exact Nat.le_floor (by exact_mod_cast hlo)
  have ub : genOtpVal r ≤ 9999 := by
    have h : genOtpVal r < 10000 := by
      unfold genOtpVal
      exact (Nat.floor_lt hnn).mpr (by exact_mod_cast hhi)
    omega
  have hne : genOtpVal r ≠ 0 := by omega
  have hp3 : 10 ^ 3 ≤ genOtpVal r := by
    norm_num
    omega
  have hp4 : genOtpVal r < 10 ^ (3 + 1) := by
    norm_num
    omega
  have hlog : Nat.log 10 (genOtpVal r) = 3 :=
    Nat.log_eq_of_pow_le_of_lt_pow hp3 hp4
  refine ⟨lb, ub, rfl, ?_, ?_, ?_⟩
  · rw [Nat.digits_len 10 _ (by norm_num) hne, hlog]
  · intro d hd
    have hnil : Nat.digits 10 (genOtpVal r) ≠ [] :=
      Nat.digits_ne_nil_iff_ne_zero.mpr hne
    have hlast := Nat.getLast_digit_ne_zero 10 hne
    rw [List.getLast?_eq_getLast _ hnil] at hd
    injection hd with hd'
    rw [← hd']
    exact hlast
  · intro n hn1 hn2
    refine ⟨((n : ℚ) - 1000) / 9000, ?_, ?_, ?_⟩
    · apply div_nonneg _ (by norm_num)
      have h : (1000 : ℚ) ≤ (n : ℚ) := by exact_mod_cast hn1
      linarith
    · rw [div_lt_one (by norm_num)]
      have h : (n : ℚ) ≤ 9999 := by exact_mod_cast hn2
      linarith
    · unfold genOtpVal
      have hexp : (1000 : ℚ) + ((n : ℚ) - 1000) / 9000 * 9000 = (n : ℚ) := by
        field_simp
      rw [hexp, Nat.floor_natCast]

/-- C7 witness: the generator evaluated at random-source value 0 stays inside
the 4-digit range. -/
theorem C7_code_format_witness :
    1000 ≤ genOtpVal 0 ∧ genOtpVal 0 ≤ 9999 :=
  ⟨(C7_code_format 0 le_rfl (by norm_num)).1,
   (C7_code_format 0 le_rfl (by norm_num)).2.1⟩

end Veri
